import Mathlib

/-!
# Verification of the HubFeed local agent core

Shallow embedding of the agent's core subsystems, translated from the
Python source:

* `src/blacklist/filter.py` — `BlacklistFilter` (text/sender/channel
  extraction, rule matching, order-preserving filtering);
* `src/core/executor.py` — `JobExecutor.execute_job`, `_apply_blacklist`,
  `_log_to_history`;
* `src/config/manager.py` — avatar store, `get_auth_failure_status`,
  `update_avatar_status`, `consume_status_dirty`;
* `src/core/loop.py` — `AgentLoop.start`, `_run` entry verification and
  the result-submission retry loop of `_poll_cycle`.

External collaborators (platform handlers, the HTTP client, history
logging, JSON file storage success) are modelled as parameters: a handler
call either returns items or raises; a storage save either succeeds or
fails (leaving the stored state unchanged, as `JSONStorage.save` writes to
a temp file and renames atomically).

Python string operations are embedded over `List Char`:
`needle in hay` (substring), `s.lower()`, `s.startswith(p)`,
`s.endswith(p)`.
-/

namespace LocalAgent

/-- Python `needle in hay` on the character lists of the two strings:
true iff `needle` occurs as a contiguous substring of `hay`
(the empty needle occurs in every string). -/
def listContainsSub (needle : List Char) : List Char → Bool
  | [] => needle.isEmpty
  | c :: t => needle.isPrefixOf (c :: t) || listContainsSub needle t

/-- Python `s.lower()` as a character list. -/
def lowerChars (s : String) : List Char := s.data.map Char.toLower

/-- Python `hay.__contains__(needle)` (the `in` operator) on strings. -/
def strContains (hay needle : String) : Bool :=
  listContainsSub needle.data hay.data

/-- Python `s.startswith(p)`. -/
def strStartsWith (s p : String) : Bool := p.data.isPrefixOf s.data

/-- Python `s.endswith(p)`. -/
def strEndsWith (s p : String) : Bool := p.data.isSuffixOf s.data

/-! ## Blacklist filter data model (`src/blacklist/filter.py`)

A content item is a Telegram-shaped dictionary; the filter reads the keys
`message`, `media.caption`, `from_id`, `peer_id` and `id`. Key absence is
`none`; a present-but-null `message` value is `some none`. Python falsy
values (empty string, zero, empty dict) are represented explicitly and
tested where the source tests truthiness. -/

/-- `item["media"]` when it is a dict: carries an optional `caption`. -/
structure Media where
  caption : Option String
deriving Repr, DecidableEq

/-- `item["from_id"]`: either a non-dict truthy value (stringified) or a
peer dict with optional `user_id` / `channel_id` entries. -/
inductive FromId where
  | str (s : String)
  | peer (userId : Option Int) (channelId : Option Int)
deriving Repr, DecidableEq

/-- `item["peer_id"]` when it is a dict: optional `channel_id` / `chat_id`. -/
structure PeerId where
  channelId : Option Int
  chatId : Option Int
deriving Repr, DecidableEq

/-- A content item. `message = none` means the `"message"` key is absent;
`message = some none` means it is present with value `None`. -/
structure Item where
  message : Option (Option String)
  media : Option Media
  fromId : Option FromId
  peerId : Option PeerId
  itemId : Option Int
deriving Repr, DecidableEq

/-- Blacklist rule set `{keywords, senders, channels}` as handed to the
filter (already merged global + per-avatar by the config manager). -/
structure Rules where
  keywords : List String
  senders : List String
  channels : List String
deriving Repr, DecidableEq

/-- `BlacklistFilter._get_text`: if the `"message"` key is present, return
its value (`None` coerced to `""` by `or ""`); otherwise, if a media dict
with a truthy caption exists, return the caption; otherwise `""`. -/
def getText (item : Item) : String :=
  match item.message with
  | some m => m.getD ""
  | none =>
    match item.media with
    | some med =>
      match med.caption with
      | some c => if c = "" then "" else c
      | none => ""
    | none => ""

/-- `BlacklistFilter._get_sender`: truthy non-dict `from_id` is
stringified; a peer dict yields `str(user_id)` if truthy, else
`str(channel_id)` if truthy, else `None`. -/
def getSender (item : Item) : Option String :=
  match item.fromId with
  | none => none
  | some (.str s) => if s = "" then none else some s
  | some (.peer userId channelId) =>
    match userId with
    | some u =>
      if u ≠ 0 then some (toString u)
      else
        match channelId with
        | some c => if c ≠ 0 then some (toString c) else none
        | none => none
    | none =>
      match channelId with
      | some c => if c ≠ 0 then some (toString c) else none
      | none => none

/-- `BlacklistFilter._get_channel`: from a `peer_id` dict, `str(channel_id)`
if truthy, else `str(chat_id)` if truthy, else `None`. -/
def getChannel (item : Item) : Option String :=
  match item.peerId with
  | none => none
  | some p =>
    match p.channelId with
    | some c =>
      if c ≠ 0 then some (toString c)
      else
        match p.chatId with
        | some d => if d ≠ 0 then some (toString d) else none
        | none => none
    | none =>
      match p.chatId with
      | some d => if d ≠ 0 then some (toString d) else none
      | none => none

/-- `BlacklistFilter._get_item_id`: `str(item["id"])` when truthy. -/
def getItemId (item : Item) : Option String :=
  match item.itemId with
  | some i => if i ≠ 0 then some (toString i) else none
  | none => none

/-- `BlacklistFilter._match_sender`: exact match, or equality modulo a
leading `@` on the pattern or the sender. -/
def matchSender (sender pat : String) : Bool :=
  if sender = pat then true
  else if strStartsWith pat "@" then
    sender = pat.drop 1 || sender = pat
  else
    sender = pat || sender = "@" ++ pat

/-- The channel clause of `BlacklistFilter._check_item`: first blocked
channel string-equal to the item's channel id, as `channel:<id>`. -/
def checkChannelRule (item : Item) (rules : Rules) : Option String :=
  match getChannel item with
  | some channel =>
    match rules.channels.find? (fun b => channel = b) with
    | some b => some ("channel:" ++ b)
    | none => none
  | none => none

/-- The sender clause of `BlacklistFilter._check_item` followed by the
channel clause: checked only when the extracted sender is truthy. -/
def checkSenderRule (item : Item) (rules : Rules) : Option String :=
  match getSender item with
  | some sender =>
    match rules.senders.find? (fun p => matchSender sender p) with
    | some p => some ("sender:" ++ p)
    | none => checkChannelRule item rules
  | none => checkChannelRule item rules

/-- `BlacklistFilter._check_item`: keyword rules first (case-insensitive
substring on the extracted text, first match wins), then sender rules,
then channel rules; `none` when the item passes. -/
def checkItem (item : Item) (rules : Rules) : Option String :=
  match rules.keywords.find?
      (fun kw => listContainsSub (lowerChars kw) (lowerChars (getText item))) with
  | some kw => some ("keyword:" ++ kw)
  | none => checkSenderRule item rules

/-- One entry of `FilterResult.reasons`: `{index, reason, item_id}`. -/
structure Reason where
  index : Nat
  reason : String
  itemId : Option String
deriving Repr, DecidableEq

/-- `FilterResult` from `filter.py`. -/
structure FilterResult where
  data : List Item
  filteredCount : Nat
  reasons : List Reason
deriving Repr, DecidableEq

/-- The enumeration loop of `BlacklistFilter.filter`: walks the items with
their indices, collecting survivors and removal reasons in order. -/
def filterGo (rules : Rules) : Nat → List Item → List Item × List Reason
  | _, [] => ([], [])
  | i, item :: rest =>
    let (d, rs) := filterGo rules (i + 1) rest
    match checkItem item rules with
    | some reason => (d, ⟨i, reason, getItemId item⟩ :: rs)
    | none => (item :: d, rs)

/-- `BlacklistFilter.filter` for a given (already merged) rule set:
`filtered_count` is the number of removal reasons. -/
def filterItems (rules : Rules) (data : List Item) : FilterResult :=
  let p := filterGo rules 0 data
  ⟨p.1, p.2.length, p.2⟩

/-! ## Job executor (`src/core/executor.py`)

The platform handlers (`TelegramHandler.execute`, `BrowserHandler.execute`)
are external collaborators: a call either returns a list of items or
raises an exception, modelled by `HandlerOutcome`. The history logger is
likewise external; its `log_job` call either succeeds or raises, modelled
by an `Except String Unit` outcome. -/

/-- Error record `{type, message}` stored in a failed job result. -/
structure ErrorInfo where
  type : String
  message : String
deriving Repr, DecidableEq

/-- A job dictionary as pulled from the backend (fields the executor
reads; `params` is passed through opaque to the handler). -/
structure Job where
  jobId : Option String
  avatarId : Option String
  command : String
deriving Repr, DecidableEq

/-- Outcome of one platform-handler `execute` call. -/
inductive HandlerOutcome where
  | ok (items : List Item)
  | raises (ty msg : String)
deriving Repr, DecidableEq

/-- The normalized job result built by `execute_job` (wall-clock fields
`execution_ms` and `timestamp` are not modelled). -/
structure JobResult where
  jobId : Option String
  avatarId : Option String
  command : String
  success : Bool
  rawData : Option (List Item)
  itemsCount : Option Nat
  filteredCount : Option Nat
  error : Option ErrorInfo
deriving Repr, DecidableEq

/-- A handler call inside the executor's `try` block: a raised exception
becomes an error with the exception's type name and message. -/
def handlerCall : HandlerOutcome → Except ErrorInfo (List Item)
  | .ok items => .ok items
  | .raises ty msg => .error ⟨ty, msg⟩

/-- The dispatch section of `execute_job`: `telegram.` prefix goes to the
Telegram handler, `browser.` to the browser handler, anything else raises
`ValueError(f"Unknown command platform: \x7bcommand\x7d")`. -/
def dispatchCommand (telegram browser : HandlerOutcome) (command : String) :
    Except ErrorInfo (List Item) :=
  if strStartsWith command "telegram." then handlerCall telegram
  else if strStartsWith command "browser." then handlerCall browser
  else .error ⟨"ValueError", "Unknown command platform: " ++ command⟩

/-- `JobExecutor._apply_blacklist`: filtering happens only when the
command ends in `get_messages` or `search_messages`; otherwise the raw
data passes through with a filtered count of 0. `rules` stands for the
merged blacklist the config manager returns for the job's avatar. -/
def applyBlacklist (rules : Rules) (rawData : List Item) (command : String) :
    List Item × Nat :=
  if !(strEndsWith command "get_messages" || strEndsWith command "search_messages") then
    (rawData, 0)
  else
    let r := filterItems rules rawData
    (r.data, r.filteredCount)

/-- `JobExecutor._log_to_history`: calls the history logger inside
`try/except`; a raised exception is converted into a warning message and
swallowed, so the call always returns. -/
def logToHistory (logOutcome : Except String Unit) : Option String :=
  match logOutcome with
  | .ok _ => none
  | .error e => some ("Failed to log job to history: " ++ e)

/-- `JobExecutor.execute_job`: dispatch inside `try` (so an unknown
command prefix and any handler exception are both caught and recorded in
the result), blacklist filtering on success, then an unconditional
best-effort history log. Total: never raises. -/
def executeJob (telegram browser : HandlerOutcome) (rules : Rules)
    (logOutcome : Except String Unit) (job : Job) : JobResult :=
  let base : JobResult :=
    ⟨job.jobId, job.avatarId, job.command, false, none, none, none, none⟩
  let result :=
    match dispatchCommand telegram browser job.command with
    | .ok rawData =>
      let (fd, fc) := applyBlacklist rules rawData job.command
      { base with
          success := true
          rawData := some fd
          itemsCount := some fd.length
          filteredCount := some fc }
    | .error e => { base with success := false, error := some e }
  let _warn := logToHistory logOutcome
  result

/-! ## Config manager avatar state (`src/config/manager.py`)

The avatar store (`avatars.json` behind `JSONStorage`) plus the
process-wide status-dirty flag. `JSONStorage.save` either succeeds or
fails atomically; the `saveOk` parameter models that IO outcome, with a
failed save leaving the stored data unchanged. `now` stands for the
wall-clock `datetime.utcnow().isoformat() + "Z"` string. -/

/-- A stored avatar (fields touched by the embedded operations; every
avatar stored through `save_avatar` has an `id`). -/
structure Avatar where
  id : String
  status : Option String
  lastUsedAt : Option String
deriving Repr, DecidableEq

/-- The config manager's mutable state relevant to avatar status. -/
structure ConfigState where
  avatars : List Avatar
  statusDirty : Bool
deriving Repr, DecidableEq

/-- `ConfigManager.get_avatar`: first stored avatar with the given id. -/
def getAvatar (s : ConfigState) (avatarId : String) : Option Avatar :=
  s.avatars.find? (fun a => a.id = avatarId)

/-- `ConfigManager.get_auth_failure_status`: `failed_reauth` when the
avatar exists and its current status is `auth_required`, otherwise
`auth_required`. -/
def getAuthFailureStatus (s : ConfigState) (avatarId : String) : String :=
  match getAvatar s avatarId with
  | some a => if a.status = some "auth_required" then "failed_reauth" else "auth_required"
  | none => "auth_required"

/-- The updater of `ConfigManager.save_avatar`: replace the first avatar
with a matching id, or append when none matches. -/
def replaceOrAppend (avatars : List Avatar) (a : Avatar) : List Avatar :=
  match avatars with
  | [] => [a]
  | b :: rest => if b.id = a.id then a :: rest else b :: replaceOrAppend rest a

/-- `ConfigManager.save_avatar`: rejects an avatar with a falsy id;
otherwise runs the read-modify-write update, whose success is the storage
save outcome `saveOk` (a failed save leaves the store unchanged). -/
def saveAvatar (s : ConfigState) (a : Avatar) (saveOk : Bool) : Bool × ConfigState :=
  if a.id = "" then (false, s)
  else if saveOk then (true, { s with avatars := replaceOrAppend s.avatars a })
  else (false, s)

/-- `ConfigManager.update_avatar_status`: `False` for a missing avatar;
otherwise saves the avatar with the new status and `last_used_at`, and
marks the dirty flag only when the save succeeded and the status actually
changed. -/
def updateAvatarStatus (s : ConfigState) (avatarId status now : String)
    (saveOk : Bool) : Bool × ConfigState :=
  match getAvatar s avatarId with
  | none => (false, s)
  | some avatar =>
    let oldStatus := avatar.status
    let avatar' : Avatar := { avatar with status := some status, lastUsedAt := some now }
    let (success, s') := saveAvatar s avatar' saveOk
    if success ∧ oldStatus ≠ some status then
      (success, { s' with statusDirty := true })
    else (success, s')

/-- `ConfigManager.consume_status_dirty`: returns the flag and resets it. -/
def consumeStatusDirty (s : ConfigState) : Bool × ConfigState :=
  (s.statusDirty, { s with statusDirty := false })

/-! ## Agent loop (`src/core/loop.py`)

Two parts are embedded.

1. The result-submission retry loop of `_poll_cycle`: `for attempt in
   range(3)` with `asyncio.sleep(2 ** attempt)` after a failed attempt
   that is not the last. The backend's `submit_result` is external; the
   oracle `outcome k` tells whether the `(k+1)`-th attempt succeeds.

2. The start / entry-verification state machine: `start()` flips the
   running flag and spawns `_run`; `_run` verifies the token first and, on
   failure, clears the running flag and returns before any avatar sync or
   task fetch. The backend calls are recorded as `LoopEvent`s. -/

/-- `max_retries` in `_poll_cycle`. -/
def maxRetries : Nat := 3

/-- One record per job: (attempts made, backoff delays slept in seconds,
whether submission eventually succeeded). -/
abbrev RetryRecord := Nat × List Nat × Bool

/-- The body of the retry `for` loop over the remaining attempt indices:
a successful attempt breaks; a failed attempt sleeps `2 ^ attempt`
seconds unless it was the last (`attempt = max_retries - 1`), which logs
and gives up. -/
def submitRetryGo (outcome : Nat → Bool) : List Nat → RetryRecord
  | [] => (0, [], false)
  | attempt :: rest =>
    if outcome attempt then (1, [], true)
    else if attempt < maxRetries - 1 then
      let (n, ds, ok) := submitRetryGo outcome rest
      (n + 1, 2 ^ attempt :: ds, ok)
    else (1, [], false)

/-- The full retry loop for one job's result: attempts indexed
`0, …, max_retries - 1`. -/
def submitWithRetry (outcome : Nat → Bool) : RetryRecord :=
  submitRetryGo outcome (List.range maxRetries)

/-- The per-task segment of `_poll_cycle`: tasks are processed
sequentially, each result submitted with retry; exhausting retries for
one job never aborts the batch. The running flag is checked before each
job; it is only mutated externally (`stop()`), so it is constant within
one modelled cycle. -/
def pollCycleSubmit (running : Bool) (outcome : Nat → Bool) :
    List Job → List RetryRecord
  | [] => []
  | _task :: rest =>
    if !running then []
    else submitWithRetry outcome :: pollCycleSubmit running outcome rest

/-- Loop flags tracked by `AgentLoop` (`_running`, `_verified`). -/
structure LoopState where
  running : Bool
  verified : Bool
deriving Repr, DecidableEq

/-- Backend calls issued by the embedded portion of the loop. -/
inductive LoopEvent where
  | verifyToken
  | syncAvatars
  | getTasks
deriving Repr, DecidableEq

/-- `AgentLoop.start`: a no-op while already running; otherwise sets
`running = true` and spawns the `_run` task (the Bool reports whether a
task was spawned). -/
def startLoop (s : LoopState) : LoopState × Bool :=
  if s.running then (s, false) else ({ s with running := true }, true)

/-- `AgentLoop._verify_token`: returns `False` without contacting the
backend when unconfigured (no token); otherwise calls the backend's
`verify_token` (event recorded), setting the verified flag on success and
clearing it on failure. -/
def verifyTokenStep (configured verifyOk : Bool) (s : LoopState) :
    LoopState × List LoopEvent × Bool :=
  if !configured then (s, [], false)
  else if verifyOk then ({ s with verified := true }, [.verifyToken], true)
  else ({ s with verified := false }, [.verifyToken], false)

/-- The `while self._running` iterations of `_run`, bounded by `fuel`:
each modelled iteration runs one `_poll_cycle`, which (the entry
verification having succeeded) fetches pending tasks from the backend. -/
def runIters (fuel : Nat) (s : LoopState) : LoopState × List LoopEvent :=
  match fuel with
  | 0 => (s, [])
  | fuel + 1 =>
    if s.running then
      let (s', evs) := runIters fuel s
      (s', .getTasks :: evs)
    else (s, [])

/-- `AgentLoop._run`: initial token verification; on failure the loop
logs, sets `running = false` and returns — no avatar sync, no poll cycle.
On success it performs the initial avatar sync and enters the poll loop. -/
def runLoop (configured verifyOk : Bool) (fuel : Nat) (s : LoopState) :
    LoopState × List LoopEvent :=
  let (s1, evs, ok) := verifyTokenStep configured verifyOk s
  if ok then
    let (s2, evs2) := runIters fuel s1
    (s2, evs ++ .syncAvatars :: evs2)
  else ({ s1 with running := false }, evs)

/-- `start()` followed by the spawned `_run` body (when one was spawned). -/
def startThenRun (configured verifyOk : Bool) (fuel : Nat) (s : LoopState) :
    LoopState × List LoopEvent :=
  let (s1, spawned) := startLoop s
  if spawned then runLoop configured verifyOk fuel s1 else (s1, [])

/-! ## Helper lemmas -/

/-- The empty needle occurs in every haystack (Python `"" in s`). -/
theorem listContainsSub_nil (hay : List Char) : listContainsSub [] hay = true := by
  cases hay <;> simp [listContainsSub, List.isPrefixOf]

/-- Kept items of `filter` are exactly the non-matching ones, in their
original order, independently of the running index. -/
theorem filterGo_fst (rules : Rules) (data : List Item) :
    ∀ i, (filterGo rules i data).1 = data.filter (fun it => (checkItem it rules).isNone) := by
  induction data with
  | nil => intro i; rfl
  | cons x xs ih =>
    intro i
    cases h : checkItem x rules <;>
      simp [filterGo, h, List.filter_cons, ih (i + 1)]

/-- When every item matches some rule, nothing survives and there is one
removal reason per item. -/
theorem filterGo_all_removed (rules : Rules) (data : List Item)
    (hall : ∀ it ∈ data, checkItem it rules ≠ none) :
    ∀ i, (filterGo rules i data).1 = [] ∧ (filterGo rules i data).2.length = data.length := by
  induction data with
  | nil => intro i; exact ⟨rfl, rfl⟩
  | cons x xs ih =>
    intro i
    have hx := hall x (List.mem_cons_self x xs)
    cases h : checkItem x rules with
    | none => exact absurd h hx
    | some r =>
      have ihx := ih (fun it hit => hall it (List.mem_cons_of_mem x hit)) (i + 1)
      simp [filterGo, h, ihx.1, ihx.2]

/-! ## Claims -/

/-- C1: For every avatar, the status returned by the auth-failure
transition (`get_auth_failure_status`) is deterministic in the current
status: `active` yields `auth_required`; `auth_required` yields
`failed_reauth`; any other current status (including `inactive`,
`failed_reauth`, or an avatar with no recorded status, or no avatar at
all) yields `auth_required`. -/
theorem getAuthFailureStatus_transition (s : ConfigState) (aid : String) (a : Avatar) :
    (getAvatar s aid = some a →
      (a.status = some "active" → getAuthFailureStatus s aid = "auth_required")
      ∧ (a.status = some "auth_required" → getAuthFailureStatus s aid = "failed_reauth")
      ∧ (a.status ≠ some "auth_required" → getAuthFailureStatus s aid = "auth_required"))
    ∧ (getAvatar s aid = none → getAuthFailureStatus s aid = "auth_required") := by
  constructor
  · intro h
    refine ⟨fun hs => ?_, fun hs => ?_, fun hs => ?_⟩ <;>
      simp [getAuthFailureStatus, h, hs]
  · intro h
    simp [getAuthFailureStatus, h]

/-- Witness for C1: the transition evaluated on concrete avatars in each
of the four cases. -/
theorem getAuthFailureStatus_transition_witness :
    getAuthFailureStatus ⟨[⟨"av1", some "active", none⟩], false⟩ "av1" = "auth_required"
    ∧ getAuthFailureStatus ⟨[⟨"av2", some "auth_required", none⟩], false⟩ "av2" = "failed_reauth"
    ∧ getAuthFailureStatus ⟨[⟨"av3", some "inactive", none⟩], false⟩ "av3" = "auth_required"
    ∧ getAuthFailureStatus ⟨[], false⟩ "av4" = "auth_required" :=
  ⟨((getAuthFailureStatus_transition ⟨[⟨"av1", some "active", none⟩], false⟩ "av1"
      ⟨"av1", some "active", none⟩).1 (by decide)).1 rfl,
   ((getAuthFailureStatus_transition ⟨[⟨"av2", some "auth_required", none⟩], false⟩ "av2"
      ⟨"av2", some "auth_required", none⟩).1 (by decide)).2.1 rfl,
   ((getAuthFailureStatus_transition ⟨[⟨"av3", some "inactive", none⟩], false⟩ "av3"
      ⟨"av3", some "inactive", none⟩).1 (by decide)).2.2 (by decide),
   (getAuthFailureStatus_transition ⟨[], false⟩ "av4" ⟨"x", none, none⟩).2 rfl⟩

/-- C2 counterexample: for an avatar whose current status is
`failed_reauth`, the auth-failure transition returns `auth_required`, not
`failed_reauth` — `failed_reauth` is not a fixed point of
`get_auth_failure_status`. -/
theorem failed_reauth_fixed_point_counterexample :
    getAuthFailureStatus ⟨[⟨"av1", some "failed_reauth", none⟩], false⟩ "av1" = "auth_required"
    ∧ getAuthFailureStatus ⟨[⟨"av1", some "failed_reauth", none⟩], false⟩ "av1" ≠ "failed_reauth" :=
  ⟨rfl, by decide⟩

/-- C2 amended: for an avatar whose current status is `failed_reauth`, a
further authentication failure sets the status back to `auth_required`
(the transition alternates `auth_required ↔ failed_reauth` rather than
fixing `failed_reauth`). -/
theorem failed_reauth_maps_to_auth_required (s : ConfigState) (aid : String)
    (a : Avatar) (h : getAvatar s aid = some a) (hs : a.status = some "failed_reauth") :
    getAuthFailureStatus s aid = "auth_required" := by
  simp [getAuthFailureStatus, h, hs]

/-- Witness for the amended C2 at a concrete avatar. -/
theorem failed_reauth_maps_to_auth_required_witness :
    getAuthFailureStatus ⟨[⟨"av1", some "failed_reauth", none⟩], false⟩ "av1" = "auth_required" :=
  failed_reauth_maps_to_auth_required ⟨[⟨"av1", some "failed_reauth", none⟩], false⟩ "av1"
    ⟨"av1", some "failed_reauth", none⟩ (by decide) rfl

/-- C3: updating an existing avatar's status to its current value never
sets the status-dirty flag (the flag keeps its previous value); a
successful update to a different value always sets it; consuming returns
the current flag and resets it to false, so a second immediate consume
returns false. -/
theorem statusDirty_semantics (s : ConfigState) (aid v now : String)
    (saveOk : Bool) (a : Avatar) :
    (getAvatar s aid = some a → a.status = some v →
      (updateAvatarStatus s aid v now saveOk).2.statusDirty = s.statusDirty)
    ∧ (getAvatar s aid = some a → a.status ≠ some v →
      (updateAvatarStatus s aid v now saveOk).1 = true →
      (updateAvatarStatus s aid v now saveOk).2.statusDirty = true)
    ∧ (consumeStatusDirty s).1 = s.statusDirty
    ∧ (consumeStatusDirty s).2.statusDirty = false
    ∧ (consumeStatusDirty (consumeStatusDirty s).2).1 = false := by
  refine ⟨?_, ?_, rfl, rfl, rfl⟩
  · intro h hs
    by_cases hid : a.id = "" <;> cases saveOk <;>
      simp [updateAvatarStatus, h, saveAvatar, hid, hs]
  · intro h hs hsucc
    by_cases hid : a.id = "" <;> cases saveOk <;>
      simp [updateAvatarStatus, h, saveAvatar, hid, hs] at hsucc ⊢

/-- Witness for C3: a no-op `active → active` update keeps the flag
false; an `active → inactive` update sets it; consume resets. -/
theorem statusDirty_semantics_witness :
    (updateAvatarStatus ⟨[⟨"av1", some "active", none⟩], false⟩ "av1" "active" "t0" true).2.statusDirty
      = (ConfigState.mk [⟨"av1", some "active", none⟩] false).statusDirty
    ∧ (updateAvatarStatus ⟨[⟨"av1", some "active", none⟩], false⟩ "av1" "inactive" "t0" true).2.statusDirty
      = true
    ∧ (consumeStatusDirty ⟨[], true⟩).1 = (ConfigState.mk [] true).statusDirty
    ∧ (consumeStatusDirty ⟨[], true⟩).2.statusDirty = false
    ∧ (consumeStatusDirty (consumeStatusDirty ⟨[], true⟩).2).1 = false :=
  ⟨(statusDirty_semantics ⟨[⟨"av1", some "active", none⟩], false⟩ "av1" "active" "t0" true
      ⟨"av1", some "active", none⟩).1 (by decide) rfl,
   (statusDirty_semantics ⟨[⟨"av1", some "active", none⟩], false⟩ "av1" "inactive" "t0" true
      ⟨"av1", some "active", none⟩).2.1 (by decide) (by decide) (by decide),
   (statusDirty_semantics ⟨[], true⟩ "x" "y" "t" false ⟨"x", none, none⟩).2.2.1,
   (statusDirty_semantics ⟨[], true⟩ "x" "y" "t" false ⟨"x", none, none⟩).2.2.2.1,
   (statusDirty_semantics ⟨[], true⟩ "x" "y" "t" false ⟨"x", none, none⟩).2.2.2.2⟩

/-- C4: if submitting a job's result always fails, exactly 3 attempts are
made, with a 1-second backoff slept after the first failure and a
2-second backoff after the second, the submission is given up (not
retried further), and every subsequent job in the batch is still
processed (the loop does not abort). -/
theorem submit_retry_exhaustion (outcome : Nat → Bool)
    (h : ∀ k, outcome k = false) (tasks : List Job) :
    submitWithRetry outcome = (3, [1, 2], false)
    ∧ pollCycleSubmit true outcome tasks = tasks.map (fun _ => (3, [1, 2], false)) := by
  have hr : List.range maxRetries = [0, 1, 2] := rfl
  have h1 : submitWithRetry outcome = (3, [1, 2], false) := by
    simp [submitWithRetry, hr, submitRetryGo, h, maxRetries]
  refine ⟨h1, ?_⟩
  induction tasks with
  | nil => rfl
  | cons t ts ih => simp [pollCycleSubmit, ih, h1]

/-- Witness for C4: an always-failing submit oracle over a two-job batch. -/
theorem submit_retry_exhaustion_witness :
    submitWithRetry (fun _ => false) = (3, [1, 2], false)
    ∧ pollCycleSubmit true (fun _ => false) [⟨some "j1", some "a1", "telegram.get_messages"⟩,
        ⟨some "j2", some "a1", "telegram.get_messages"⟩]
      = [(3, [1, 2], false), (3, [1, 2], false)] := by
  have := submit_retry_exhaustion (fun _ => false) (fun _ => rfl)
    [⟨some "j1", some "a1", "telegram.get_messages"⟩,
     ⟨some "j2", some "a1", "telegram.get_messages"⟩]
  exact ⟨this.1, this.2⟩

/-- C5: `execute_job` never raises — the returned result does not depend
on the outcome of the post-job history-log call (whose failure is
swallowed), an unknown command prefix yields `success = false` with a
`ValueError`-typed error carrying the `Unknown command platform` message,
and any exception raised by a dispatched handler is captured as
`{type, message}` in the result. -/
theorem executeJob_never_raises (telegram browser : HandlerOutcome)
    (rules : Rules) (lo lo' : Except String Unit) (job : Job) :
    executeJob telegram browser rules lo job = executeJob telegram browser rules lo' job
    ∧ (strStartsWith job.command "telegram." = false →
        strStartsWith job.command "browser." = false →
        (executeJob telegram browser rules lo job).success = false
        ∧ (executeJob telegram browser rules lo job).error =
            some ⟨"ValueError", "Unknown command platform: " ++ job.command⟩)
    ∧ (∀ ty msg, telegram = .raises ty msg →
        strStartsWith job.command "telegram." = true →
        (executeJob telegram browser rules lo job).success = false
        ∧ (executeJob telegram browser rules lo job).error = some ⟨ty, msg⟩)
    ∧ (∀ ty msg, browser = .raises ty msg →
        strStartsWith job.command "telegram." = false →
        strStartsWith job.command "browser." = true →
        (executeJob telegram browser rules lo job).success = false
        ∧ (executeJob telegram browser rules lo job).error = some ⟨ty, msg⟩) := by
  refine ⟨rfl, ?_, ?_, ?_⟩
  · intro h1 h2
    simp [executeJob, dispatchCommand, h1, h2]
  · intro ty msg ht h1
    simp [executeJob, dispatchCommand, h1, ht, handlerCall]
  · intro ty msg hb h1 h2
    simp [executeJob, dispatchCommand, h1, h2, hb, handlerCall]

/-- Witness for C5: an unknown-prefix job and a raising Telegram handler,
each on a concrete job; the log call failing does not change the result. -/
theorem executeJob_never_raises_witness :
    (executeJob (.ok []) (.ok []) ⟨[], [], []⟩ (.error "disk full")
        ⟨some "j1", some "a1", "slack.get_messages"⟩
      = executeJob (.ok []) (.ok []) ⟨[], [], []⟩ (.ok ())
        ⟨some "j1", some "a1", "slack.get_messages"⟩)
    ∧ ((executeJob (.ok []) (.ok []) ⟨[], [], []⟩ (.error "disk full")
          ⟨some "j1", some "a1", "slack.get_messages"⟩).success = false
      ∧ (executeJob (.ok []) (.ok []) ⟨[], [], []⟩ (.error "disk full")
          ⟨some "j1", some "a1", "slack.get_messages"⟩).error =
        some ⟨"ValueError", "Unknown command platform: " ++ "slack.get_messages"⟩)
    ∧ ((executeJob (.raises "AuthKeyError" "session revoked") (.ok []) ⟨[], [], []⟩ (.ok ())
          ⟨some "j2", some "a1", "telegram.get_messages"⟩).success = false
      ∧ (executeJob (.raises "AuthKeyError" "session revoked") (.ok []) ⟨[], [], []⟩ (.ok ())
          ⟨some "j2", some "a1", "telegram.get_messages"⟩).error =
        some ⟨"AuthKeyError", "session revoked"⟩) :=
  ⟨(executeJob_never_raises (.ok []) (.ok []) ⟨[], [], []⟩ (.error "disk full") (.ok ())
      ⟨some "j1", some "a1", "slack.get_messages"⟩).1,
   (executeJob_never_raises (.ok []) (.ok []) ⟨[], [], []⟩ (.error "disk full") (.ok ())
      ⟨some "j1", some "a1", "slack.get_messages"⟩).2.1 (by decide) (by decide),
   (executeJob_never_raises (.raises "AuthKeyError" "session revoked") (.ok []) ⟨[], [], []⟩
      (.ok ()) (.ok ()) ⟨some "j2", some "a1", "telegram.get_messages"⟩).2.2.1
      "AuthKeyError" "session revoked" rfl (by decide)⟩

/-- C6: blacklist filtering is applied if and only if the command string
ends in `get_messages` or `search_messages`; for any other command the
raw result is returned unchanged with `filtered_count = 0`, whatever the
rules. -/
theorem applyBlacklist_suffix_gate (rules : Rules) (rawData : List Item) (command : String) :
    (strEndsWith command "get_messages" = false →
      strEndsWith command "search_messages" = false →
      applyBlacklist rules rawData command = (rawData, 0))
    ∧ (strEndsWith command "get_messages" = true ∨ strEndsWith command "search_messages" = true →
      applyBlacklist rules rawData command =
        ((filterItems rules rawData).data, (filterItems rules rawData).filteredCount)) := by
  constructor
  · intro h1 h2
    simp [applyBlacklist, h1, h2]
  · rintro (h | h) <;> simp [applyBlacklist, h]

/-- Witness for C6: `telegram.get_channel_info` passes matching content
through unfiltered with count 0; `telegram.get_messages` filters it. -/
theorem applyBlacklist_suffix_gate_witness :
    applyBlacklist ⟨["spam"], [], []⟩ [⟨some (some "spam inside"), none, none, none, none⟩]
      "telegram.get_channel_info"
      = ([⟨some (some "spam inside"), none, none, none, none⟩], 0)
    ∧ applyBlacklist ⟨["spam"], [], []⟩ [⟨some (some "spam inside"), none, none, none, none⟩]
      "telegram.get_messages"
      = ((filterItems ⟨["spam"], [], []⟩ [⟨some (some "spam inside"), none, none, none, none⟩]).data,
         (filterItems ⟨["spam"], [], []⟩ [⟨some (some "spam inside"), none, none, none, none⟩]).filteredCount) :=
  ⟨(applyBlacklist_suffix_gate ⟨["spam"], [], []⟩
      [⟨some (some "spam inside"), none, none, none, none⟩] "telegram.get_channel_info").1
      (by decide) (by decide),
   (applyBlacklist_suffix_gate ⟨["spam"], [], []⟩
      [⟨some (some "spam inside"), none, none, none, none⟩] "telegram.get_messages").2
      (Or.inl (by decide))⟩

/-- C7 counterexample: an item whose `"message"` key is present but empty
and whose media caption contains the blacklisted keyword is NOT removed —
the caption fallback applies only when the `"message"` key is absent, so
the text body is `""` and the item passes the filter. -/
theorem caption_fallback_counterexample :
    getText ⟨some (some ""), some ⟨some "spam"⟩, none, none, none⟩ = ""
    ∧ checkItem ⟨some (some ""), some ⟨some "spam"⟩, none, none, none⟩ ⟨["spam"], [], []⟩ = none
    ∧ (filterItems ⟨["spam"], [], []⟩
        [⟨some (some ""), some ⟨some "spam"⟩, none, none, none⟩]).data
      = [⟨some (some ""), some ⟨some "spam"⟩, none, none, none⟩]
    ∧ (filterItems ⟨["spam"], [], []⟩
        [⟨some (some ""), some ⟨some "spam"⟩, none, none, none⟩]).filteredCount = 0 :=
  ⟨rfl, by decide, by decide, by decide⟩

/-- C7 amended: when the `"message"` key is present, its value (with
`None` coerced to `""`) is the text body and no caption fallback occurs,
even when the value is empty; the fallback to a non-empty media caption
applies exactly when the `"message"` key is absent, and then a caption
containing a blacklisted keyword gets the item removed with a keyword
reason. -/
theorem getText_caption_fallback (item : Item) (med : Media) (c : String) :
    (∀ m, item.message = some m → getText item = m.getD "")
    ∧ (item.message = none → item.media = some med → med.caption = some c → c ≠ "" →
        getText item = c)
    ∧ (∀ kw, item.message = none → item.media = some med → med.caption = some c → c ≠ "" →
        listContainsSub (lowerChars kw) (lowerChars c) = true →
        checkItem item ⟨[kw], [], []⟩ = some ("keyword:" ++ kw)) := by
  refine ⟨?_, ?_, ?_⟩
  · intro m hm
    simp [getText, hm]
  · intro h1 h2 h3 h4
    simp [getText, h1, h2, h3, h4]
  · intro kw h1 h2 h3 h4 h5
    have ht : getText item = c := by simp [getText, h1, h2, h3, h4]
    simp [checkItem, ht, h5]

/-- Witness for the amended C7: absent `"message"` key, caption with the
keyword in different case — removed with the keyword reason. -/
theorem getText_caption_fallback_witness :
    getText ⟨none, some ⟨some "buy SPAM now"⟩, none, none, none⟩ = "buy SPAM now"
    ∧ checkItem ⟨none, some ⟨some "buy SPAM now"⟩, none, none, none⟩ ⟨["spam"], [], []⟩
      = some ("keyword:" ++ "spam") :=
  ⟨(getText_caption_fallback ⟨none, some ⟨some "buy SPAM now"⟩, none, none, none⟩
      ⟨some "buy SPAM now"⟩ "buy SPAM now").2.1 rfl rfl rfl (by decide),
   (getText_caption_fallback ⟨none, some ⟨some "buy SPAM now"⟩, none, none, none⟩
      ⟨some "buy SPAM now"⟩ "buy SPAM now").2.2 "spam" rfl rfl rfl (by decide) (by decide)⟩

/-- C8: per item, rules are checked keyword → sender → channel and the
first matching rule wins; within the keyword pass the earliest keyword of
the rule list that matches the text decides the reason; an item matching
no rule is kept, and the filter's kept list is exactly the non-matching
items in their original order. -/
theorem checkItem_first_match_wins (item : Item) (rules : Rules) (data : List Item) :
    (∀ kw, rules.keywords.find?
        (fun k => listContainsSub (lowerChars k) (lowerChars (getText item))) = some kw →
      checkItem item rules = some ("keyword:" ++ kw))
    ∧ (rules.keywords.find?
        (fun k => listContainsSub (lowerChars k) (lowerChars (getText item))) = none →
      ∀ snd p, getSender item = some snd →
        rules.senders.find? (fun q => matchSender snd q) = some p →
        checkItem item rules = some ("sender:" ++ p))
    ∧ (rules.keywords.find?
        (fun k => listContainsSub (lowerChars k) (lowerChars (getText item))) = none →
      (∀ snd, getSender item = some snd →
        rules.senders.find? (fun q => matchSender snd q) = none) →
      ∀ ch b, getChannel item = some ch →
        rules.channels.find? (fun q => ch = q) = some b →
        checkItem item rules = some ("channel:" ++ b))
    ∧ (rules.keywords.find?
        (fun k => listContainsSub (lowerChars k) (lowerChars (getText item))) = none →
      (∀ snd, getSender item = some snd →
        rules.senders.find? (fun q => matchSender snd q) = none) →
      (∀ ch, getChannel item = some ch →
        rules.channels.find? (fun q => ch = q) = none) →
      checkItem item rules = none)
    ∧ (filterItems rules data).data = data.filter (fun it => (checkItem it rules).isNone) := by
  refine ⟨?_, ?_, ?_, ?_, filterGo_fst rules data 0⟩
  · intro kw hk
    simp [checkItem, hk]
  · intro hk snd p hs hp
    simp [checkItem, hk, checkSenderRule, hs, hp]
  · intro hk hsn ch b hch hb
    cases hgs : getSender item with
    | none => simp [checkItem, hk, checkSenderRule, hgs, checkChannelRule, hch, hb]
    | some snd => simp [checkItem, hk, checkSenderRule, hgs, hsn snd hgs, checkChannelRule, hch, hb]
  · intro hk hsn hcn
    cases hgs : getSender item with
    | none =>
      cases hgc : getChannel item with
      | none => simp [checkItem, hk, checkSenderRule, hgs, checkChannelRule, hgc]
      | some ch => simp [checkItem, hk, checkSenderRule, hgs, checkChannelRule, hgc, hcn ch hgc]
    | some snd =>
      cases hgc : getChannel item with
      | none => simp [checkItem, hk, checkSenderRule, hgs, hsn snd hgs, checkChannelRule, hgc]
      | some ch =>
        simp [checkItem, hk, checkSenderRule, hgs, hsn snd hgs, checkChannelRule, hgc, hcn ch hgc]

/-- Witness for C8: the spec's example — rules `["spam", "test"]`, item
text `"spam and test"` — gives reason `keyword:spam`, the earlier rule. -/
theorem checkItem_first_match_wins_witness :
    checkItem ⟨some (some "spam and test"), none, none, none, none⟩ ⟨["spam", "test"], [], []⟩
      = some ("keyword:" ++ "spam") :=
  (checkItem_first_match_wins ⟨some (some "spam and test"), none, none, none, none⟩
    ⟨["spam", "test"], [], []⟩ []).1 "spam" (by decide)

/-- C9: when the initial token verification at loop entry fails (agent
unconfigured, or the backend verify call fails), `_run` clears the
running flag and terminates without ever fetching tasks; so after
`start()` on an unverifiable configuration, running becomes true (the
task is spawned) and then false, with no `get_tasks` call in the run. -/
theorem entry_verify_failure_no_poll (s s' : LoopState) (configured verifyOk : Bool)
    (fuel : Nat) (hrun : s.running = false)
    (hfail : configured = false ∨ verifyOk = false) :
    (startLoop s).1.running = true
    ∧ (runLoop configured verifyOk fuel s').1.running = false
    ∧ LoopEvent.getTasks ∉ (runLoop configured verifyOk fuel s').2
    ∧ (startThenRun configured verifyOk fuel s).1.running = false
    ∧ LoopEvent.getTasks ∉ (startThenRun configured verifyOk fuel s).2 := by
  have hstart : (startLoop s).1.running = true := by simp [startLoop, hrun]
  have hrunloop : ∀ t : LoopState, (runLoop configured verifyOk fuel t).1.running = false
      ∧ LoopEvent.getTasks ∉ (runLoop configured verifyOk fuel t).2 := by
    intro t
    rcases hfail with h | h
    · simp [runLoop, verifyTokenStep, h]
    · cases configured <;> simp [runLoop, verifyTokenStep, h]
  have hst : startThenRun configured verifyOk fuel s
      = runLoop configured verifyOk fuel { s with running := true } := by
    simp [startThenRun, startLoop, hrun]
  refine ⟨hstart, (hrunloop s').1, (hrunloop s').2, ?_, ?_⟩ <;> rw [hst]
  · exact (hrunloop _).1
  · exact (hrunloop _).2

/-- Witness for C9: a stopped, unverified loop started against a
configured backend whose verify call fails. -/
theorem entry_verify_failure_no_poll_witness :
    (startLoop ⟨false, false⟩).1.running = true
    ∧ (runLoop true false 5 ⟨true, true⟩).1.running = false
    ∧ LoopEvent.getTasks ∉ (runLoop true false 5 ⟨true, true⟩).2
    ∧ (startThenRun true false 5 ⟨false, false⟩).1.running = false
    ∧ LoopEvent.getTasks ∉ (startThenRun true false 5 ⟨false, false⟩).2 :=
  entry_verify_failure_no_poll ⟨false, false⟩ ⟨true, true⟩ true false 5 rfl (Or.inr rfl)

/-- C10 counterexample: with keyword rules `["spam", ""]` an item whose
text contains `"spam"` is removed, but the recorded reason is
`keyword:spam` — the earlier matching keyword — not `keyword:` as the
claim states for every rule set containing the empty keyword. -/
theorem empty_keyword_reason_counterexample :
    "" ∈ (Rules.mk ["spam", ""] [] []).keywords
    ∧ checkItem ⟨some (some "spam"), none, none, none, none⟩ ⟨["spam", ""], [], []⟩
      = some "keyword:spam"
    ∧ checkItem ⟨some (some "spam"), none, none, none, none⟩ ⟨["spam", ""], [], []⟩
      ≠ some "keyword:" :=
  ⟨by decide, by decide, by decide⟩

/-- C10 amended: an empty string among the keyword rules blacklists every
item — each item (including items with no text at all) is removed with a
keyword reason, and no item survives the filter; the recorded reason is
`keyword:` when the empty keyword is the first keyword rule, and for an
item with empty text body (where no non-empty keyword can match); a
matching keyword declared earlier in the list preempts with its own
reason. -/
theorem empty_keyword_blacklists_every_item (item : Item) (rules : Rules)
    (data : List Item) (h : "" ∈ rules.keywords) :
    (∃ kw, checkItem item rules = some ("keyword:" ++ kw))
    ∧ (rules.keywords.head? = some "" → checkItem item rules = some "keyword:")
    ∧ (getText item = "" → checkItem item rules = some "keyword:")
    ∧ (filterItems rules data).data = []
    ∧ (filterItems rules data).filteredCount = data.length := by
  have hp : ∀ it : Item,
      listContainsSub (lowerChars "") (lowerChars (getText it)) = true := by
    intro it
    simpa [lowerChars] using listContainsSub_nil (lowerChars (getText it))
  have hex : ∀ it : Item, ∃ kw, checkItem it rules = some ("keyword:" ++ kw) := by
    intro it
    have hsome : (rules.keywords.find?
        (fun k => listContainsSub (lowerChars k) (lowerChars (getText it)))).isSome :=
      List.find?_isSome.mpr ⟨"", h, hp it⟩
    obtain ⟨kw, hkw⟩ := Option.isSome_iff_exists.mp hsome
    exact ⟨kw, by simp [checkItem, hkw]⟩
  refine ⟨hex item, ?_, ?_, ?_, ?_⟩
  · intro hh
    cases hks : rules.keywords with
    | nil => simp [hks] at hh
    | cons k ks =>
      have hk : k = "" := by simp [hks] at hh; exact hh
      subst hk
      have hfind : (("" : String) :: ks).find?
          (fun q => listContainsSub (lowerChars q) (lowerChars (getText item))) = some "" := by
        rw [List.find?_cons_of_pos]
        exact hp item
      have hck : checkItem item rules = some ("keyword:" ++ "") := by
        simp [checkItem, hks, hfind]
      rw [hck]
      rfl
  · intro ht
    have hall : ∀ kw : String,
        listContainsSub (lowerChars kw) (lowerChars (getText item)) = true → kw = "" := by
      intro kw hkw
      rw [ht] at hkw
      have : (lowerChars kw).isEmpty = true := by
        simpa [lowerChars, listContainsSub] using hkw
      have hnil : lowerChars kw = [] := List.isEmpty_iff.mp this
      have hdata : kw.data = [] := by
        simpa [lowerChars, List.map_eq_nil_iff] using hnil
      cases kw with
      | mk l =>
        have hl : l = [] := by simpa using hdata
        rw [hl]
    cases hc : rules.keywords.find?
        (fun k => listContainsSub (lowerChars k) (lowerChars (getText item))) with
    | none =>
      exfalso
      have hsome : (rules.keywords.find?
          (fun k => listContainsSub (lowerChars k) (lowerChars (getText item)))).isSome :=
        List.find?_isSome.mpr ⟨"", h, hp item⟩
      rw [hc] at hsome
      simp at hsome
    | some r =>
      have hr := List.find?_some hc
      have hre : r = "" := hall r hr
      subst hre
      have hck : checkItem item rules = some ("keyword:" ++ "") := by
        simp [checkItem, hc]
      rw [hck]
      rfl
  · exact (filterGo_all_removed rules data
      (fun it hit => by obtain ⟨kw, hkw⟩ := hex it; simp [hkw]) 0).1
  · exact (filterGo_all_removed rules data
      (fun it hit => by obtain ⟨kw, hkw⟩ := hex it; simp [hkw]) 0).2

/-- Witness for the amended C10: a single empty keyword removes an item
with no text field at all, with reason `keyword:`, and empties the data. -/
theorem empty_keyword_blacklists_every_item_witness :
    (∃ kw, checkItem ⟨none, none, none, none, none⟩ ⟨[""], [], []⟩
      = some ("keyword:" ++ kw))
    ∧ checkItem ⟨none, none, none, none, none⟩ ⟨[""], [], []⟩ = some "keyword:"
    ∧ (filterItems ⟨[""], [], []⟩ [⟨none, none, none, none, none⟩]).data = []
    ∧ (filterItems ⟨[""], [], []⟩ [⟨none, none, none, none, none⟩]).filteredCount = 1 :=
  ⟨(empty_keyword_blacklists_every_item ⟨none, none, none, none, none⟩ ⟨[""], [], []⟩
      [⟨none, none, none, none, none⟩] (by decide)).1,
   (empty_keyword_blacklists_every_item ⟨none, none, none, none, none⟩ ⟨[""], [], []⟩
      [⟨none, none, none, none, none⟩] (by decide)).2.1 rfl,
   (empty_keyword_blacklists_every_item ⟨none, none, none, none, none⟩ ⟨[""], [], []⟩
      [⟨none, none, none, none, none⟩] (by decide)).2.2.2.1,
   (empty_keyword_blacklists_every_item ⟨none, none, none, none, none⟩ ⟨[""], [], []⟩
      [⟨none, none, none, none, none⟩] (by decide)).2.2.2.2⟩

end LocalAgent
